import Mathlib

/-!
Verification of the CCTvAnalysis per-frame detection pipeline.

Each definition in this file is a shallow embedding of a function of the
repository, translated from the Python source.  Times, confidences and
suspicion scores are modelled as exact rationals (the source uses IEEE
doubles only for plain arithmetic and comparisons, never for anything
that depends on rounding); Euclidean pixel distances are compared through
their squares, which is order-isomorphic to the source's `np.hypot`
comparisons against nonnegative thresholds.
-/

namespace CCTV

/-! ## Suspicion scoring (src/backend/zones/base.py, `_update_suspicion`) -/

/-- One step of `BaseZoneProcessor._update_suspicion` on the current score of
one event type (base.py lines 421-431).  Default increment 0.15, decay 0.08
at the call sites that omit them. -/
def update_suspicion (current : ℚ) (detected : Bool) (increment : ℚ) (decay : ℚ) : ℚ :=
  if detected then min 1 (current + increment) else max 0 (current - decay)

/-- Arguments of one `_update_suspicion` call (for one event type). -/
structure SuspCall where
  detected  : Bool
  increment : ℚ
  decay     : ℚ
deriving DecidableEq

/-- Run a sequence of `_update_suspicion` calls for one event type starting
from no prior history (`suspicion_scores.get(event_type, 0.0)` = 0). -/
def run_suspicion (calls : List SuspCall) : ℚ :=
  calls.foldl (fun s c => update_suspicion s c.detected c.increment c.decay) 0

lemma update_suspicion_mem_Icc {s : ℚ} (hs0 : 0 ≤ s) (hs1 : s ≤ 1)
    (c : SuspCall) (hinc : 0 ≤ c.increment) (hdec : 0 ≤ c.decay) :
    0 ≤ update_suspicion s c.detected c.increment c.decay ∧
      update_suspicion s c.detected c.increment c.decay ≤ 1 := by
  unfold update_suspicion
  cases c.detected with
  | true =>
      simp only [if_pos rfl]
      constructor
      · exact le_min (by norm_num) (by linarith)
      · exact min_le_left _ _
  | false =>
      rw [if_neg (by simp)]
      constructor
      · exact le_max_left _ _
      · exact max_le (by norm_num) (by linarith)

lemma foldl_suspicion_mem_Icc (calls : List SuspCall)
    (hinc : ∀ c ∈ calls, 0 ≤ c.increment) (hdec : ∀ c ∈ calls, 0 ≤ c.decay) :
    ∀ s : ℚ, 0 ≤ s → s ≤ 1 →
      0 ≤ calls.foldl (fun s c => update_suspicion s c.detected c.increment c.decay) s ∧
        calls.foldl (fun s c => update_suspicion s c.detected c.increment c.decay) s ≤ 1 := by
  induction calls with
  | nil => intro s h0 h1; exact ⟨h0, h1⟩
  | cons c rest ih =>
      intro s h0 h1
      have hstep := update_suspicion_mem_Icc h0 h1 c
        (hinc c (List.mem_cons_self c rest)) (hdec c (List.mem_cons_self c rest))
      exact ih (fun x hx => hinc x (List.mem_cons_of_mem c hx))
        (fun x hx => hdec x (List.mem_cons_of_mem c hx))
        _ hstep.1 hstep.2

lemma foldl_suspicion_replicate (i d : ℚ) (hi : 0 ≤ i) :
    ∀ (k : ℕ) (s : ℚ), s ≤ 1 →
      (List.replicate k (⟨true, i, d⟩ : SuspCall)).foldl
          (fun s c => update_suspicion s c.detected c.increment c.decay) s
        = min 1 (s + k * i) := by
  intro k
  induction k with
  | zero => intro s hs; simpa using (min_eq_right hs).symm
  | succ k ih =>
      intro s hs
      rw [List.replicate_succ, List.foldl_cons]
      have hstep : update_suspicion s true i d = min 1 (s + i) := rfl
      rw [hstep, ih (min 1 (s + i)) (min_le_left _ _)]
      rcases le_or_lt (s + i) 1 with h | h
      · rw [min_eq_right h]
        congr 1
        push_cast
        ring
      · rw [min_eq_left h.le]
        have h1 : (1 : ℚ) ≤ 1 + (k : ℚ) * i := by
          nlinarith [mul_nonneg (Nat.cast_nonneg (α := ℚ) k) hi]
        have h2 : (1 : ℚ) ≤ s + (↑(k + 1)) * i := by
          push_cast
          nlinarith [mul_nonneg (Nat.cast_nonneg (α := ℚ) k) hi]
        rw [min_eq_left h1, min_eq_left h2]

/-- C1.  The suspicion score of an event type stays in [0,1] across any
sequence of `_update_suspicion` calls (all call sites pass nonnegative
increments and decays); a `detected=true` call adds `increment` clamped to 1,
a `detected=false` call subtracts `decay` clamped to 0, and starting from no
prior history, k consecutive `detected=true` calls with increment i leave the
score at min(1, k·i). -/
theorem suspicion_bounded_and_linear_ramp
    (calls : List SuspCall)
    (hinc : ∀ c ∈ calls, 0 ≤ c.increment) (hdec : ∀ c ∈ calls, 0 ≤ c.decay)
    (k : ℕ) (i d : ℚ) (hi : 0 ≤ i) :
    (∀ s inc dec : ℚ, update_suspicion s true inc dec = min 1 (s + inc) ∧
        update_suspicion s false inc dec = max 0 (s - dec)) ∧
      (0 ≤ run_suspicion calls ∧ run_suspicion calls ≤ 1) ∧
      run_suspicion (List.replicate k ⟨true, i, d⟩) = min 1 (k * i) := by
  refine ⟨fun s inc dec => ⟨rfl, rfl⟩, ?_, ?_⟩
  · exact foldl_suspicion_mem_Icc calls hinc hdec 0 le_rfl (by norm_num)
  · have := foldl_suspicion_replicate i d hi k 0 (by norm_num)
    simpa [run_suspicion] using this

/-- Witness for C1 at a concrete input: three detected frames at the default
increment 0.15 from no history give score 0.45 = min(1, 3·0.15). -/
theorem suspicion_bounded_and_linear_ramp_witness :
    (0 ≤ run_suspicion [⟨true, 15/100, 8/100⟩, ⟨false, 15/100, 8/100⟩] ∧
        run_suspicion [⟨true, 15/100, 8/100⟩, ⟨false, 15/100, 8/100⟩] ≤ 1) ∧
      run_suspicion (List.replicate 3 ⟨true, 15/100, 8/100⟩) = min 1 (3 * (15/100)) := by
  have h := suspicion_bounded_and_linear_ramp
    [⟨true, 15/100, 8/100⟩, ⟨false, 15/100, 8/100⟩]
    (by intro c hc; fin_cases hc <;> norm_num)
    (by intro c hc; fin_cases hc <;> norm_num)
    3 (15/100) (8/100) (by norm_num)
  exact ⟨h.2.1, by simpa using h.2.2⟩

/-! ## Event engine (src/event_engine/engine.py) -/

/-- One buffered frame of the event engine: `{ts, confidence}`. -/
structure EngineFrame where
  ts         : ℚ
  confidence : ℚ
deriving DecidableEq

/-- Per-event-type configuration record of `EVENT_CONFIG` (the playbook
dicts are static data irrelevant to the incident decision and are
summarised by the scenario name). -/
structure EventConfig where
  window_sec : ℚ
  min_frames : ℕ
  threshold  : ℚ
  priority   : String
  scenario   : String
deriving DecidableEq

/-- `EVENT_CONFIG` (engine.py lines 19-106). -/
def EVENT_CONFIG (event_type : String) : Option EventConfig :=
  if event_type = "fight" then some ⟨5, 3, 65/100, "high", "fight_violence_crowd"⟩
  else if event_type = "exam_malpractice" then some ⟨10, 2, 6/10, "medium", "exam_malpractice"⟩
  else if event_type = "gate_accident" then some ⟨4, 1, 8/10, "critical", "gate_accident"⟩
  else if event_type = "intrusion" then some ⟨8, 2, 7/10, "high", "unauthorized_entry"⟩
  else if event_type = "abandoned_object" then some ⟨20, 2, 65/100, "high", "abandoned_object"⟩
  else if event_type = "fire_smoke" then some ⟨3, 1, 75/100, "critical", "fire_smoke"⟩
  else none

/-- Incoming worker event as read by the engine (`event.get` with the
relevant keys present). -/
structure EngineEvent where
  tenant_id  : String
  camera_id  : String
  event_type : String
  timestamp  : ℚ
  confidence : ℚ
deriving DecidableEq

/-- `_make_key` (engine.py lines 115-120). -/
def make_key (e : EngineEvent) : String × String × String :=
  (e.tenant_id, e.camera_id, e.event_type)

/-- `_recent_events`: defaultdict from key to a deque (maxlen 64),
modelled as a total function with default `[]`. -/
def EngineState := String × String × String → List EngineFrame

/-- Appending to a `deque(maxlen=64)`: when full, the oldest (leftmost)
entry is dropped. -/
def append_bounded (buf : List EngineFrame) (f : EngineFrame) : List EngineFrame :=
  let b := buf ++ [f]
  if 64 < b.length then b.drop (b.length - 64) else b

/-- `_update_state` (engine.py lines 123-138): append the current frame,
then pop from the left while the front is older than `window_sec` relative
to the current event's timestamp. -/
def update_state (buf : List EngineFrame) (e : EngineEvent) (window_sec : ℚ) :
    List EngineFrame :=
  (append_bounded buf ⟨e.timestamp, e.confidence⟩).dropWhile
    (fun f => decide (window_sec < e.timestamp - f.ts))

/-- `_compute_suspicion_score` (engine.py lines 141-144): mean confidence. -/
def compute_suspicion_score (frames : List EngineFrame) : ℚ :=
  if frames = [] then 0
  else (frames.map (fun f => f.confidence)).sum / frames.length

/-- The incident-relevant part of the payload of `process_event`. -/
structure IncidentReport where
  incident        : Bool
  suspicion_score : ℚ
  priority        : Option String
deriving DecidableEq

/-- `process_event` (engine.py lines 147-197), returning the report together
with the updated module state. -/
def process_event (st : EngineState) (e : EngineEvent) : IncidentReport × EngineState :=
  match EVENT_CONFIG e.event_type with
  | none => (⟨false, 0, none⟩, st)
  | some config =>
      let key := make_key e
      let frames := update_state (st key) e config.window_sec
      let suspicion_score := compute_suspicion_score frames
      let enough_frames := decide (config.min_frames ≤ frames.length)
      let over_threshold := decide (config.threshold ≤ suspicion_score)
      (⟨enough_frames && over_threshold, suspicion_score, some config.priority⟩,
        fun k => if k = key then frames else st k)

/-- C2.  For an event whose type is known to the engine, `process_event`
reports an incident iff, after appending {timestamp, confidence} to the
(tenant, camera, event_type) buffer (deque cap 64) and pruning entries older
than `window_sec` relative to the current timestamp, the buffer holds at
least `min_frames` entries whose mean confidence is at least `threshold`;
only that key's buffer changes.  An unknown event type reports no incident
and leaves the whole state unchanged. -/
theorem process_event_incident_gate (st : EngineState) (e : EngineEvent) :
    (∀ config, EVENT_CONFIG e.event_type = some config →
      ((process_event st e).1.incident = true ↔
        config.min_frames ≤ (update_state (st (make_key e)) e config.window_sec).length ∧
          config.threshold ≤
            compute_suspicion_score (update_state (st (make_key e)) e config.window_sec)) ∧
      (process_event st e).2 = fun k =>
        if k = make_key e then update_state (st (make_key e)) e config.window_sec
        else st k) ∧
    (EVENT_CONFIG e.event_type = none →
      (process_event st e).1.incident = false ∧ (process_event st e).2 = st) := by
  constructor
  · intro config hconfig
    constructor
    · simp [process_event, hconfig]
    · simp [process_event, hconfig]
  · intro hnone
    constructor
    · simp [process_event, hnone]
    · simp [process_event, hnone]

/-- Witness for C2 at a concrete input: a first `fight` event at confidence
0.7 — a single buffered frame, below `min_frames = 3`, hence no incident;
and an event of the unknown type `loitering` leaves the state unchanged. -/
theorem process_event_incident_gate_witness :
    ((process_event (fun _ => []) ⟨"school1", "cam1", "fight", 100, 7/10⟩).1.incident = true ↔
      (3 ≤ (update_state [] ⟨"school1", "cam1", "fight", 100, 7/10⟩ 5).length ∧
        (65/100 : ℚ) ≤ compute_suspicion_score
          (update_state [] ⟨"school1", "cam1", "fight", 100, 7/10⟩ 5))) ∧
    ((process_event (fun _ => []) ⟨"school1", "cam1", "loitering", 100, 7/10⟩).1.incident
      = false) := by
  constructor
  · exact ((process_event_incident_gate (fun _ => [])
      ⟨"school1", "cam1", "fight", 100, 7/10⟩).1 ⟨5, 3, 65/100, "high", "fight_violence_crowd"⟩
      rfl).1
  · exact ((process_event_incident_gate (fun _ => [])
      ⟨"school1", "cam1", "loitering", 100, 7/10⟩).2 rfl).1

/-! ## Worker-level event cooldown (src/backend/worker/worker.py) -/

/-- `EVENT_TYPE_COOLDOWNS` (worker.py lines 72-81). -/
def EVENT_TYPE_COOLDOWNS (event_type : String) : Option ℚ :=
  if event_type = "weapon_detected" then some 10
  else if event_type = "fight" then some 8
  else if event_type = "gate_accident" then some 8
  else if event_type = "vehicle_detected" then some 5
  else if event_type = "crowd_formation" then some 6
  else if event_type = "fire_smoke_detected" then some 10
  else if event_type = "mobile_usage" then some 4
  else if event_type = "fall_detected" then some 6
  else none

/-- `EVENT_COOLDOWN_SECONDS = float(os.getenv("EVENT_COOLDOWN_SECONDS", "10"))`
(worker.py line 61), modelled under the default environment. -/
def EVENT_COOLDOWN_SECONDS : ℚ := 10

/-- `EventCooldownManager._get_cooldown` (worker.py lines 101-103) of a
manager constructed with `default_cooldown`.  The process-wide instance
`_event_cooldown = EventCooldownManager()` uses
`default_cooldown = EVENT_COOLDOWN_SECONDS`. -/
def get_cooldown (default_cooldown : ℚ) (event_type : String) : ℚ :=
  (EVENT_TYPE_COOLDOWNS event_type).getD default_cooldown

/-- The `{last_time, last_confidence}` record kept per
`{camera_id}:{event_type}` key. -/
structure CooldownEntry where
  last_time       : ℚ
  last_confidence : ℚ
deriving DecidableEq

/-- `EventCooldownManager.should_emit` (worker.py lines 105-151) restricted
to the state of one `{camera_id}:{event_type}` key (`none` = key absent;
the method reads and writes no other key).  Returns the decision and the
key's new state. -/
def should_emit (default_cooldown : ℚ) (st : Option CooldownEntry)
    (event_type : String) (confidence : ℚ) (now : ℚ)
    (confidence_increase_threshold : ℚ) : Bool × Option CooldownEntry :=
  let cooldown := get_cooldown default_cooldown event_type
  match st with
  | none => (true, some ⟨now, confidence⟩)
  | some s =>
      let elapsed := now - s.last_time
      let prev_conf := s.last_confidence
      if cooldown ≤ elapsed then (true, some ⟨now, confidence⟩)
      else if prev_conf * (1 + confidence_increase_threshold) < confidence then
        (true, some ⟨now, confidence⟩)
      else (false, some s)

lemma should_emit_some_eval (d : ℚ) (et : String) (c now t0 c0 : ℚ) :
    should_emit d (some ⟨t0, c0⟩) et c now (10/100) =
      if get_cooldown d et ≤ now - t0 then (true, some ⟨now, c⟩)
      else if c0 * (11/10) < c then (true, some ⟨now, c⟩)
      else (false, some ⟨t0, c0⟩) := by
  have key : (1 : ℚ) + 10/100 = 11/10 := by norm_num
  simp only [should_emit, key]

/-- C3.  With the default `confidence_increase_threshold = 0.10`,
`should_emit` returns true iff the key was never seen, or the elapsed time
since the last emission reaches the per-type cooldown, or the confidence
exceeds the last recorded confidence times 1.10; every true result records
{now, confidence} and a false result leaves the state unchanged.
Equivalently, after an emission at t0 with confidence c0, an attempt at t1
with confidence c1 is suppressed iff t1 − t0 < cooldown and c1 ≤ c0·1.10. -/
theorem should_emit_cooldown_rule (d : ℚ) (st : Option CooldownEntry)
    (et : String) (c now : ℚ) :
    ((should_emit d st et c now (10/100)).1 = true ↔
      st = none ∨
        (∃ s, st = some s ∧ get_cooldown d et ≤ now - s.last_time) ∨
        (∃ s, st = some s ∧ s.last_confidence * (11/10) < c)) ∧
    ((should_emit d st et c now (10/100)).1 = true →
      (should_emit d st et c now (10/100)).2 = some ⟨now, c⟩) ∧
    ((should_emit d st et c now (10/100)).1 = false →
      (should_emit d st et c now (10/100)).2 = st) ∧
    (∀ t0 c0, (should_emit d (some ⟨t0, c0⟩) et c now (10/100)).1 = false ↔
      now - t0 < get_cooldown d et ∧ c ≤ c0 * (11/10)) := by
  have hlast : ∀ t0 c0 : ℚ,
      (should_emit d (some ⟨t0, c0⟩) et c now (10/100)).1 = false ↔
        now - t0 < get_cooldown d et ∧ c ≤ c0 * (11/10) := by
    intro t0 c0
    rw [should_emit_some_eval]
    split_ifs with h1 h2
    · constructor
      · intro hf; exact absurd hf (by simp)
      · rintro ⟨hlt, -⟩; exact (not_le.mpr hlt h1).elim
    · constructor
      · intro hf; exact absurd hf (by simp)
      · rintro ⟨-, hle⟩; exact (not_lt.mpr hle h2).elim
    · exact ⟨fun _ => ⟨not_le.mp h1, not_lt.mp h2⟩, fun _ => rfl⟩
  refine ⟨?_, ?_, ?_, hlast⟩
  · cases st with
    | none => simp [should_emit]
    | some s =>
        obtain ⟨t0, c0⟩ := s
        rw [should_emit_some_eval]
        split_ifs with h1 h2
        · exact iff_of_true rfl (Or.inr (Or.inl ⟨⟨t0, c0⟩, rfl, h1⟩))
        · exact iff_of_true rfl (Or.inr (Or.inr ⟨⟨t0, c0⟩, rfl, h2⟩))
        · constructor
          · intro hf; exact absurd hf (by simp)
          · rintro (hnone | ⟨s, hs, hcd⟩ | ⟨s, hs, hconf⟩)
            · exact absurd hnone (by simp)
            · rw [Option.some_inj] at hs; subst hs; exact (h1 hcd).elim
            · rw [Option.some_inj] at hs; subst hs; exact (h2 hconf).elim
  · cases st with
    | none => intro _; rfl
    | some s =>
        obtain ⟨t0, c0⟩ := s
        rw [should_emit_some_eval]
        split_ifs
        · intro _; rfl
        · intro _; rfl
        · intro h; exact absurd h (by simp)
  · cases st with
    | none => intro h; exact absurd h (by simp [should_emit])
    | some s =>
        obtain ⟨t0, c0⟩ := s
        rw [should_emit_some_eval]
        split_ifs
        · intro h; exact absurd h (by simp)
        · intro h; exact absurd h (by simp)
        · intro _; rfl

/-- Witness for C3: after an emission at t0 = 100 with confidence 0.5, an
attempt for `fight` (cooldown 8) at t1 = 104 with confidence 0.54 is
suppressed (4 < 8 and 0.54 ≤ 0.55), and the state is unchanged. -/
theorem should_emit_cooldown_rule_witness :
    ((should_emit EVENT_COOLDOWN_SECONDS (some ⟨100, 1/2⟩) "fight" (54/100) 104
        (10/100)).1 = false ↔
      (104 : ℚ) - 100 < get_cooldown EVENT_COOLDOWN_SECONDS "fight" ∧
        (54/100 : ℚ) ≤ (1/2) * (11/10)) := by
  exact (should_emit_cooldown_rule EVENT_COOLDOWN_SECONDS (some ⟨100, 1/2⟩)
    "fight" (54/100) 104).2.2.2 100 (1/2)

/-- C9 counterexample.  The claim says the process-wide manager falls back
to a 5-second default cooldown for event types outside its table; the
process-wide instance is constructed with
`default_cooldown = EVENT_COOLDOWN_SECONDS`, which is 10 under the default
environment, so an unknown type such as "loitering" gets 10 s, not 5 s. -/
theorem manager_default_cooldown_not_five :
    ¬ get_cooldown EVENT_COOLDOWN_SECONDS "loitering" = 5 := by
  decide

/-- C9 (amended).  The per-type cooldown table is as stated
(weapon_detected 10, fire_smoke_detected 10, fight 8, gate_accident 8,
crowd_formation 6, fall_detected 6, vehicle_detected 5, mobile_usage 4),
and for any event type outside the table the process-wide manager falls
back to `EVENT_COOLDOWN_SECONDS`, which is 10 seconds under the default
environment. -/
theorem manager_cooldown_table (et : String)
    (h : EVENT_TYPE_COOLDOWNS et = none) :
    get_cooldown EVENT_COOLDOWN_SECONDS "weapon_detected" = 10 ∧
    get_cooldown EVENT_COOLDOWN_SECONDS "fire_smoke_detected" = 10 ∧
    get_cooldown EVENT_COOLDOWN_SECONDS "fight" = 8 ∧
    get_cooldown EVENT_COOLDOWN_SECONDS "gate_accident" = 8 ∧
    get_cooldown EVENT_COOLDOWN_SECONDS "crowd_formation" = 6 ∧
    get_cooldown EVENT_COOLDOWN_SECONDS "fall_detected" = 6 ∧
    get_cooldown EVENT_COOLDOWN_SECONDS "vehicle_detected" = 5 ∧
    get_cooldown EVENT_COOLDOWN_SECONDS "mobile_usage" = 4 ∧
    get_cooldown EVENT_COOLDOWN_SECONDS et = 10 := by
  refine ⟨by decide, by decide, by decide, by decide, by decide, by decide,
    by decide, by decide, ?_⟩
  unfold get_cooldown
  rw [h]
  rfl

/-- Witness for amended C9 at the concrete unknown type "loitering". -/
theorem manager_cooldown_table_witness :
    EVENT_TYPE_COOLDOWNS "loitering" = none ∧
      get_cooldown EVENT_COOLDOWN_SECONDS "loitering" = 10 := by
  exact ⟨by decide, (manager_cooldown_table "loitering" (by decide)).2.2.2.2.2.2.2.2⟩

/-! ## Shared zone-processor data (src/backend/zones/base.py) -/

/-- Axis-aligned pixel box `[x1, y1, x2, y2]`. -/
structure Bbox where
  x1 : ℤ
  y1 : ℤ
  x2 : ℤ
  y2 : ℤ
deriving DecidableEq

/-- `TrackedObject.center` (base.py lines 33-38): integer floor division
by 2, as Python's `//`. -/
def Bbox.center (b : Bbox) : ℤ × ℤ :=
  ((b.x1 + b.x2).fdiv 2, (b.y1 + b.y2).fdiv 2)

/-- Squared Euclidean distance between centers.  The source compares
`np.hypot` distances against nonnegative thresholds; comparing squares
against squared thresholds is the same order. -/
def dist_sq (c1 c2 : ℤ × ℤ) : ℤ :=
  (c1.1 - c2.1) * (c1.1 - c2.1) + (c1.2 - c2.2) * (c1.2 - c2.2)

/-- `TrackedObject` (base.py lines 23-42).  The motion vector is carried
but unused by the functions embedded here. -/
structure TrackedObject where
  object_id     : ℤ
  class_name    : String
  bbox          : Bbox
  confidence    : ℚ
  motion_vector : ℚ × ℚ
  timestamp     : ℚ
deriving DecidableEq

def TrackedObject.center (o : TrackedObject) : ℤ × ℤ := o.bbox.center

/-! ## Temporal buffer event counters (src/backend/zones/base.py,
`TemporalBuffer`) -/

/-- `dict.get`-style lookup in an insertion-ordered association list
(Python dict keys are unique, so first match = only match). -/
def lookup_assoc {α : Type} : List (String × α) → String → Option α
  | [], _ => none
  | p :: rest, k => if p.1 = k then some p.2 else lookup_assoc rest k

/-- Python `dict` assignment: overwrite in place if the key exists,
append otherwise. -/
def set_assoc {α : Type} : List (String × α) → String → α → List (String × α)
  | [], k, v => [(k, v)]
  | p :: rest, k, v => if p.1 = k then (k, v) :: rest else p :: set_assoc rest k v

lemma lookup_set_assoc_self {α : Type} (l : List (String × α)) (k : String) (v : α) :
    lookup_assoc (set_assoc l k v) k = some v := by
  induction l with
  | nil => simp [lookup_assoc, set_assoc]
  | cons p rest ih =>
      by_cases h : p.1 = k
      · simp [lookup_assoc, set_assoc, h]
      · simp [lookup_assoc, set_assoc, h, ih]

lemma lookup_filter_ne {α : Type} (l : List (String × α)) (k : String) :
    lookup_assoc (l.filter (fun p => p.1 != k)) k = none := by
  induction l with
  | nil => simp [lookup_assoc]
  | cons p rest ih =>
      by_cases h : p.1 = k
      · simpa [List.filter_cons, h] using ih
      · simpa [List.filter_cons, h, lookup_assoc] using ih

/-- The event-counter part of `TemporalBuffer`: `event_counters` and
`event_start_times` (base.py lines 80-81).  Key presence is significant:
`increment_event` stamps a start time only when the counter key is absent. -/
structure TemporalEventState where
  event_counters    : List (String × ℕ)
  event_start_times : List (String × ℚ)
deriving DecidableEq

/-- `TemporalBuffer.increment_event` (base.py lines 103-108), with the
`time.time()` call made explicit as `now`.  Returns the new state and the
returned counter value. -/
def increment_event (st : TemporalEventState) (event_type : String) (now : ℚ) :
    TemporalEventState × ℕ :=
  let st1 :=
    if (lookup_assoc st.event_counters event_type).isSome then st
    else ⟨set_assoc st.event_counters event_type 0,
          set_assoc st.event_start_times event_type now⟩
  let n := (lookup_assoc st1.event_counters event_type).getD 0 + 1
  (⟨set_assoc st1.event_counters event_type n, st1.event_start_times⟩, n)

/-- `TemporalBuffer.reset_event` (base.py lines 110-112): sets the counter
to 0 (creating the key if needed) and pops the start time. -/
def reset_event (st : TemporalEventState) (event_type : String) :
    TemporalEventState :=
  ⟨set_assoc st.event_counters event_type 0,
   st.event_start_times.filter (fun p => p.1 != event_type)⟩

/-- `TemporalBuffer.get_event_duration` (base.py lines 114-116), with
`time.time()` made explicit. -/
def get_event_duration (st : TemporalEventState) (event_type : String)
    (now : ℚ) : ℚ :=
  match lookup_assoc st.event_start_times event_type with
  | none => 0
  | some start => now - start

/-- C8 counterexample.  Increment "e" at t=0, reset, increment again at
t=100: the counter transitions 0 → 1 but no start time is stamped (the key
"e" is still present in `event_counters` after `reset_event`), so
`get_event_duration` at t=105 returns 0 rather than the 5 seconds elapsed
since the transition — refuting the claim that every 0→1 transition is
stamped. -/
theorem increment_event_no_restamp_after_reset :
    (increment_event (reset_event (increment_event ⟨[], []⟩ "e" 0).1 "e") "e" 100).2 = 1 ∧
    (increment_event (reset_event (increment_event ⟨[], []⟩ "e" 0).1 "e") "e" 100).1.event_start_times = [] ∧
    get_event_duration (increment_event (reset_event (increment_event ⟨[], []⟩ "e" 0).1 "e") "e" 100).1 "e" 105 = 0 ∧
    (105 : ℚ) - 100 ≠ 0 := by
  have hempty :
      (increment_event (reset_event (increment_event ⟨[], []⟩ "e" 0).1 "e") "e" 100).1.event_start_times = [] := by
    decide
  refine ⟨by decide, hempty, ?_, by norm_num⟩
  rw [get_event_duration, hempty]
  rfl

/-- C8 (amended).  `increment_event` raises the counter by one, but stamps
the start time only on the first-ever increment for an event type (when its
counter key is absent); when the counter key is present — as it is after a
`reset_event`, which zeroes the counter but keeps its key and removes the
start time — an increment leaves the start times untouched, and
`get_event_duration` then returns 0.  When a start time is present,
`get_event_duration` returns the seconds elapsed since it. -/
theorem increment_event_stamps_only_first
    (st : TemporalEventState) (et : String) (now t : ℚ)
    (habsent : lookup_assoc st.event_counters et = none) :
    ((increment_event st et now).2 = 1 ∧
      lookup_assoc (increment_event st et now).1.event_start_times et = some now ∧
      get_event_duration (increment_event st et now).1 et t = t - now) ∧
    (∀ st' : TemporalEventState, ∀ n,
      lookup_assoc st'.event_counters et = some n →
        (increment_event st' et now).2 = n + 1 ∧
        (increment_event st' et now).1.event_start_times = st'.event_start_times) ∧
    (lookup_assoc (reset_event st et).event_counters et = some 0 ∧
      lookup_assoc (reset_event st et).event_start_times et = none) ∧
    (∀ st' : TemporalEventState,
      lookup_assoc st'.event_start_times et = none →
        get_event_duration st' et t = 0) := by
  refine ⟨?_, ?_, ?_, ?_⟩
  · simp only [increment_event, habsent, Option.isSome_none, Bool.false_eq_true, if_neg,
      ite_false]
    refine ⟨by rw [lookup_set_assoc_self]; rfl, lookup_set_assoc_self _ _ _, ?_⟩
    rw [get_event_duration, lookup_set_assoc_self]
  · intro st' n hsome
    have h1 : (lookup_assoc st'.event_counters et).isSome = true := by rw [hsome]; rfl
    simp only [increment_event, h1, ite_true]
    rw [hsome]
    exact ⟨rfl, trivial⟩
  · exact ⟨lookup_set_assoc_self _ _ _, lookup_filter_ne _ _⟩
  · intro st' hnone
    rw [get_event_duration, hnone]

/-- Witness for amended C8: first increment of "e" at t=3 returns counter 1,
stamps start 3, and the duration at t=10 is 7. -/
theorem increment_event_stamps_only_first_witness :
    lookup_assoc (⟨[], []⟩ : TemporalEventState).event_counters "e" = none ∧
      ((increment_event ⟨[], []⟩ "e" 3).2 = 1 ∧
        lookup_assoc (increment_event ⟨[], []⟩ "e" 3).1.event_start_times "e" = some 3 ∧
        get_event_duration (increment_event ⟨[], []⟩ "e" 3).1 "e" 10 = 10 - 3) :=
  ⟨rfl, (increment_event_stamps_only_first ⟨[], []⟩ "e" 3 10 rfl).1⟩

/-! ## Zone-processor cooldown and shared detection helpers
(src/backend/zones/base.py, `BaseZoneProcessor`) -/

/-- The per-instance mutable state of `BaseZoneProcessor` used by the
embedded helpers: `suspicion_scores` and `_last_event_times` are dicts read
through `.get(event_type, 0)`, modelled as total functions with default 0;
plus the two shared frame counters. -/
structure ZoneState where
  suspicion_scores       : String → ℚ
  last_event_times       : String → ℚ
  weapon_frame_count     : ℕ
  fire_smoke_frame_count : ℕ

/-- `_event_cooldowns` plus `_default_cooldown = 5.0`
(base.py lines 179-189), combined as `_get_event_cooldown` does. -/
def zone_event_cooldown (event_type : String) : ℚ :=
  if event_type = "weapon_detected" then 10
  else if event_type = "fight" then 8
  else if event_type = "gate_accident" then 8
  else if event_type = "vehicle_detected" then 5
  else if event_type = "crowd_formation" then 6
  else if event_type = "fire_smoke_detected" then 10
  else if event_type = "mobile_usage" then 4
  else if event_type = "fall_detected" then 6
  else 5

/-- `_can_emit_event` (base.py lines 413-416), with `time.time()` explicit:
it compares elapsed time against the per-type cooldown and reads nothing
else — in particular no confidence. -/
def can_emit_event (st : ZoneState) (now : ℚ) (event_type : String) : Bool :=
  decide (zone_event_cooldown event_type ≤ now - st.last_event_times event_type)

/-- `_mark_event_emitted` (base.py lines 418-419). -/
def mark_event_emitted (st : ZoneState) (now : ℚ) (event_type : String) : ZoneState :=
  { st with last_event_times :=
      fun e => if e = event_type then now else st.last_event_times e }

/-- Write one event type's suspicion score (`self.suspicion_scores[et] = new`). -/
def set_zone_suspicion (st : ZoneState) (event_type : String) (v : ℚ) : ZoneState :=
  { st with suspicion_scores :=
      fun e => if e = event_type then v else st.suspicion_scores e }

/-- One entry of the shared detector output (`{class_name, confidence,
bbox}` dicts in `shared["weapons"]` / `shared["fire_smoke"]`). -/
structure SharedDetection where
  class_name : String
  confidence : ℚ
  bbox       : Bbox
deriving DecidableEq

/-- `DetectionEvent` as produced by the embedded zone helpers.  The
metadata dict (weapon_type, near_person, rounded pixel distance, …) is
descriptive only and not modelled; no claim concerns it. -/
structure ZoneDetectionEvent where
  event_type     : String
  confidence     : ℚ
  bounding_boxes : List Bbox
deriving DecidableEq

def WEAPON_CONFIDENCE_THRESHOLD : ℚ := 40/100

/-- `WEAPON_CONFIDENCE_BY_ZONE` (base.py lines 161-166). -/
def WEAPON_CONFIDENCE_BY_ZONE (zone_name : String) : Option ℚ :=
  if zone_name = "school_ground" then some (35/100)
  else if zone_name = "corridor" then some (55/100)
  else if zone_name = "outgate" then some (50/100)
  else if zone_name = "classroom" then some (50/100)
  else none

/-- The zone weapon threshold:
`WEAPON_CONFIDENCE_BY_ZONE.get(zone_name, WEAPON_CONFIDENCE_THRESHOLD)`. -/
def weapon_threshold (zone_name : String) : ℚ :=
  (WEAPON_CONFIDENCE_BY_ZONE zone_name).getD WEAPON_CONFIDENCE_THRESHOLD

def FIRE_SMOKE_CONFIDENCE_THRESHOLD : ℚ := 45/100
def MIN_WEAPON_FRAMES : ℕ := 2
def MIN_FIRE_SMOKE_FRAMES : ℕ := 2

/-- `_process_shared_weapons` (base.py lines 227-321), with `time.time()`
explicit.  `max(confident, key=confidence)` keeps the first maximum, and the
nearest person keeps the first minimum, both as in Python; the nearest-person
search compares squared center distances (same order as `np.hypot`). -/
def process_shared_weapons (zone_name : String) (st : ZoneState) (now : ℚ)
    (weapons : List SharedDetection) (persons : List TrackedObject) :
    Option ZoneDetectionEvent × ZoneState :=
  match weapons.filter (fun d => decide (weapon_threshold zone_name ≤ d.confidence)) with
  | [] =>
      (none, set_zone_suspicion { st with weapon_frame_count := 0 } "weapon_detected"
        (update_suspicion (st.suspicion_scores "weapon_detected") false (15/100) (8/100)))
  | hd :: tl =>
      let st1 := { st with weapon_frame_count := st.weapon_frame_count + 1 }
      let suspicion :=
        update_suspicion (st1.suspicion_scores "weapon_detected") true (30/100) (8/100)
      let st2 := set_zone_suspicion st1 "weapon_detected" suspicion
      if st2.weapon_frame_count < MIN_WEAPON_FRAMES then (none, st2)
      else if suspicion < 50/100 then (none, st2)
      else if can_emit_event st2 now "weapon_detected" = false then (none, st2)
      else
        let best := tl.foldl (fun b d => if b.confidence < d.confidence then d else b) hd
        let w_center := best.bbox.center
        let closest := persons.foldl (fun acc p =>
          match acc with
          | none => some (p, dist_sq w_center p.center)
          | some (q, dq) =>
              if dist_sq w_center p.center < dq then some (p, dist_sq w_center p.center)
              else some (q, dq)) none
        let st3 := { mark_event_emitted st2 now "weapon_detected" with weapon_frame_count := 0 }
        let bboxes :=
          match closest with
          | none => [best.bbox]
          | some (p, _) => [best.bbox, p.bbox]
        (some ⟨"weapon_detected", best.confidence, bboxes⟩, st3)

/-- `_process_shared_fire_smoke` (base.py lines 323-367), with `time.time()`
explicit. -/
def process_shared_fire_smoke (st : ZoneState) (now : ℚ)
    (fire_smoke : List SharedDetection) : Option ZoneDetectionEvent × ZoneState :=
  match fire_smoke.filter (fun d => decide (FIRE_SMOKE_CONFIDENCE_THRESHOLD ≤ d.confidence)) with
  | [] =>
      (none, set_zone_suspicion { st with fire_smoke_frame_count := 0 } "fire_smoke_detected"
        (update_suspicion (st.suspicion_scores "fire_smoke_detected") false (15/100) (8/100)))
  | hd :: tl =>
      let st1 := { st with fire_smoke_frame_count := st.fire_smoke_frame_count + 1 }
      let suspicion :=
        update_suspicion (st1.suspicion_scores "fire_smoke_detected") true (35/100) (8/100)
      let st2 := set_zone_suspicion st1 "fire_smoke_detected" suspicion
      if st2.fire_smoke_frame_count < MIN_FIRE_SMOKE_FRAMES then (none, st2)
      else if suspicion < 45/100 then (none, st2)
      else if can_emit_event st2 now "fire_smoke_detected" = false then (none, st2)
      else
        let best := tl.foldl (fun b d => if b.confidence < d.confidence then d else b) hd
        let st3 :=
          { mark_event_emitted st2 now "fire_smoke_detected" with fire_smoke_frame_count := 0 }
        (some ⟨"fire_smoke_detected", best.confidence, (hd :: tl).map (fun d => d.bbox)⟩, st3)

def VEHICLE_CONFIDENCE_THRESHOLD : ℚ := 45/100

/-- `OutgateProcessor._detect_vehicle` (outgate.py lines 257-290), with
`time.time()` explicit: a representative zone-specific sub-detector, whose
first action is the cooldown gate (decay suspicion, return None). -/
def detect_vehicle (st : ZoneState) (tb : TemporalEventState) (now : ℚ)
    (vehicles : List TrackedObject) :
    Option ZoneDetectionEvent × ZoneState × TemporalEventState :=
  if can_emit_event st now "vehicle_detected" = false then
    (none, set_zone_suspicion st "vehicle_detected"
      (update_suspicion (st.suspicion_scores "vehicle_detected") false (15/100) (8/100)), tb)
  else if vehicles.isEmpty then
    (none, set_zone_suspicion st "vehicle_detected"
      (update_suspicion (st.suspicion_scores "vehicle_detected") false (15/100) (8/100)), tb)
  else
    match vehicles.filter (fun v => decide (VEHICLE_CONFIDENCE_THRESHOLD ≤ v.confidence)) with
    | [] =>
        (none, set_zone_suspicion st "vehicle_detected"
          (update_suspicion (st.suspicion_scores "vehicle_detected") false (15/100) (8/100)), tb)
    | hd :: tl =>
        let suspicion :=
          update_suspicion (st.suspicion_scores "vehicle_detected") true (20/100) (8/100)
        let st1 := set_zone_suspicion st "vehicle_detected" suspicion
        let r := increment_event tb "vehicle_detected" now
        if r.2 < 2 ∨ suspicion < 40/100 then (none, st1, r.1)
        else
          let best := tl.foldl (fun b v => if b.confidence < v.confidence then v else b) hd
          let st2 := mark_event_emitted st1 now "vehicle_detected"
          let tb2 := reset_event r.1 "vehicle_detected"
          (some ⟨"vehicle_detected", best.confidence,
            ((hd :: tl).take 5).map (fun v => v.bbox)⟩, st2, tb2)

/-- Zone-processor state for the C4 counterexample: the last
`weapon_detected` emission was at t = 100 and every suspicion score is 0,
so at t = 101 the 10-second weapon cooldown is active. -/
def cooldown_demo_state : ZoneState :=
  ⟨fun _ => 0, fun e => if e = "weapon_detected" then 100 else 0, 0, 0⟩

/-- One corridor frame during the active cooldown with a confident knife
detection (0.9 ≥ corridor threshold 0.55) and no persons. -/
def cooldown_demo_run : Option ZoneDetectionEvent × ZoneState :=
  process_shared_weapons "corridor" cooldown_demo_state 101
    [⟨"knife", 9/10, ⟨0, 0, 10, 10⟩⟩] []

/-- C4 counterexample.  While the weapon cooldown is active, the shared
weapon helper does not decay the suspicion score and leave the counter
alone: with a confident detection present it increments the frame counter
to 1 and raises suspicion from 0 to 0.3 (decay would have left it at 0);
no event is returned. -/
theorem shared_weapons_update_during_cooldown :
    can_emit_event cooldown_demo_state 101 "weapon_detected" = false ∧
    cooldown_demo_run.1 = none ∧
    cooldown_demo_run.2.weapon_frame_count = 1 ∧
    cooldown_demo_run.2.suspicion_scores "weapon_detected" = 3/10 ∧
    update_suspicion (cooldown_demo_state.suspicion_scores "weapon_detected")
        false (15/100) (8/100) = 0 ∧
    (3/10 : ℚ) ≠ 0 := by
  have hle : (55 : ℚ)/100 ≤ 9/10 := by norm_num
  have hf : ([⟨"knife", 9/10, ⟨0, 0, 10, 10⟩⟩] : List SharedDetection).filter
      (fun d => decide (weapon_threshold "corridor" ≤ d.confidence)) =
        [⟨"knife", 9/10, ⟨0, 0, 10, 10⟩⟩] := by
    simp [weapon_threshold, WEAPON_CONFIDENCE_BY_ZONE, hle]
  refine ⟨?_, ?_, ?_, ?_, ?_, by norm_num⟩
  · simp [can_emit_event, cooldown_demo_state, zone_event_cooldown]
    norm_num
  · simp only [cooldown_demo_run, process_shared_weapons, hf]
    norm_num [cooldown_demo_state, set_zone_suspicion, MIN_WEAPON_FRAMES]
  · simp only [cooldown_demo_run, process_shared_weapons, hf]
    norm_num [cooldown_demo_state, set_zone_suspicion, MIN_WEAPON_FRAMES]
  · simp only [cooldown_demo_run, process_shared_weapons, hf]
    norm_num [cooldown_demo_state, set_zone_suspicion, update_suspicion, MIN_WEAPON_FRAMES]
  · norm_num [cooldown_demo_state, update_suspicion]

/-- C4 (amended).  The zone-specific sub-detectors open with the cooldown
gate — shown here for the outgate vehicle detector, whose blocked-gate
branch decays suspicion, touches no temporal counter and returns no
event — whereas the shared weapon and fire/smoke helpers check the
cooldown only after updating state: under an active cooldown they still
return no event, but with qualifying detections present they increment
their consecutive-frame counter and raise (not decay) the suspicion
score. -/
theorem cooldown_gate_order
    (zone : String) (st : ZoneState) (tb : TemporalEventState) (now : ℚ)
    (vehicles : List TrackedObject) (weapons fire_smoke : List SharedDetection)
    (persons : List TrackedObject) :
    (can_emit_event st now "vehicle_detected" = false →
      (detect_vehicle st tb now vehicles).1 = none ∧
      (detect_vehicle st tb now vehicles).2.1.suspicion_scores "vehicle_detected" =
        update_suspicion (st.suspicion_scores "vehicle_detected") false (15/100) (8/100) ∧
      (detect_vehicle st tb now vehicles).2.2 = tb) ∧
    (can_emit_event st now "weapon_detected" = false →
      (process_shared_weapons zone st now weapons persons).1 = none ∧
      (weapons.filter (fun d => decide (weapon_threshold zone ≤ d.confidence)) ≠ [] →
        (process_shared_weapons zone st now weapons persons).2.weapon_frame_count =
          st.weapon_frame_count + 1 ∧
        (process_shared_weapons zone st now weapons persons).2.suspicion_scores
            "weapon_detected" =
          update_suspicion (st.suspicion_scores "weapon_detected") true (30/100) (8/100))) ∧
    (can_emit_event st now "fire_smoke_detected" = false →
      (process_shared_fire_smoke st now fire_smoke).1 = none ∧
      (fire_smoke.filter
          (fun d => decide (FIRE_SMOKE_CONFIDENCE_THRESHOLD ≤ d.confidence)) ≠ [] →
        (process_shared_fire_smoke st now fire_smoke).2.fire_smoke_frame_count =
          st.fire_smoke_frame_count + 1 ∧
        (process_shared_fire_smoke st now fire_smoke).2.suspicion_scores
            "fire_smoke_detected" =
          update_suspicion (st.suspicion_scores "fire_smoke_detected") true
            (35/100) (8/100))) := by
  refine ⟨?_, ?_, ?_⟩
  · intro h
    unfold detect_vehicle
    rw [if_pos h]
    exact ⟨rfl, by simp [set_zone_suspicion], rfl⟩
  · intro h
    unfold process_shared_weapons
    split
    · rename_i heq
      exact ⟨rfl, fun hne => (hne heq).elim⟩
    · rename_i hd tl heq
      dsimp only
      split_ifs with h1 h2 h3
      · exact ⟨rfl, fun _ => ⟨rfl, by simp [set_zone_suspicion]⟩⟩
      · exact ⟨rfl, fun _ => ⟨rfl, by simp [set_zone_suspicion]⟩⟩
      · exact ⟨rfl, fun _ => ⟨rfl, by simp [set_zone_suspicion]⟩⟩
      · exact absurd h h3
  · intro h
    unfold process_shared_fire_smoke
    split
    · rename_i heq
      exact ⟨rfl, fun hne => (hne heq).elim⟩
    · rename_i hd tl heq
      dsimp only
      split_ifs with h1 h2 h3
      · exact ⟨rfl, fun _ => ⟨rfl, by simp [set_zone_suspicion]⟩⟩
      · exact ⟨rfl, fun _ => ⟨rfl, by simp [set_zone_suspicion]⟩⟩
      · exact ⟨rfl, fun _ => ⟨rfl, by simp [set_zone_suspicion]⟩⟩
      · exact absurd h h3

/-- Witness for amended C4: with every event type last emitted at t = 100,
a call at t = 101 is inside every cooldown; the vehicle detector returns
no event, decays suspicion and leaves the temporal buffer untouched. -/
theorem cooldown_gate_order_witness :
    can_emit_event ⟨fun _ => 0, fun _ => 100, 0, 0⟩ 101 "vehicle_detected" = false ∧
      ((detect_vehicle ⟨fun _ => 0, fun _ => 100, 0, 0⟩ ⟨[], []⟩ 101 []).1 = none ∧
        (detect_vehicle ⟨fun _ => 0, fun _ => 100, 0, 0⟩ ⟨[], []⟩ 101
            []).2.1.suspicion_scores "vehicle_detected" =
          update_suspicion 0 false (15/100) (8/100) ∧
        (detect_vehicle ⟨fun _ => 0, fun _ => 100, 0, 0⟩ ⟨[], []⟩ 101 []).2.2 =
          (⟨[], []⟩ : TemporalEventState)) := by
  have hc : can_emit_event ⟨fun _ => 0, fun _ => 100, 0, 0⟩ 101 "vehicle_detected" = false := by
    simp [can_emit_event, zone_event_cooldown]
    norm_num
  exact ⟨hc, (cooldown_gate_order "corridor" ⟨fun _ => 0, fun _ => 100, 0, 0⟩
    ⟨[], []⟩ 101 [] [] [] []).1 hc⟩

/-! ## Zone-level cooldown trace (C10)

Every emission path of every sub-detector (weapons/fire-smoke helpers,
fight, crowd, mobile, vehicle, accident) returns an event only after
`_can_emit_event` holds and immediately calls `_mark_event_emitted`.
`zone_emitter` runs that discipline over an arbitrary frame trace: per
frame, an adversarial oracle `fire` stands for every other condition
(evidence, counters, thresholds) and `confidence` is carried along to show
it cannot influence the gate, which reads only the clock. -/

/-- One frame of the trace: clock reading, the oracle for all
non-cooldown conditions, and the candidate's confidence. -/
structure EmitStep where
  now        : ℚ
  fire       : Bool
  confidence : ℚ
deriving DecidableEq

/-- Emission times produced by the `_can_emit_event` /
`_mark_event_emitted` discipline of base.py over a frame trace. -/
def zone_emitter (event_type : String) : ZoneState → List EmitStep → List ℚ
  | _, [] => []
  | st, s :: rest =>
      if s.fire && can_emit_event st s.now event_type then
        s.now :: zone_emitter event_type (mark_event_emitted st s.now event_type) rest
      else zone_emitter event_type st rest

lemma zone_event_cooldown_pos (et : String) : 0 < zone_event_cooldown et := by
  unfold zone_event_cooldown
  split_ifs <;> norm_num

lemma zone_emitter_lower_bound (et : String) :
    ∀ (steps : List EmitStep) (st : ZoneState) (t : ℚ),
      t ∈ zone_emitter et st steps →
        st.last_event_times et + zone_event_cooldown et ≤ t := by
  intro steps
  induction steps with
  | nil => intro st t ht; simp [zone_emitter] at ht
  | cons s rest ih =>
      intro st t ht
      rw [zone_emitter] at ht
      by_cases hc : s.fire && can_emit_event st s.now et
      · rw [if_pos hc] at ht
        have hgate : zone_event_cooldown et ≤ s.now - st.last_event_times et := by
          have := (Bool.and_eq_true _ _).mp hc
          exact of_decide_eq_true this.2
        rcases List.mem_cons.mp ht with h | h
        · subst h; linarith
        · have h2 := ih (mark_event_emitted st s.now et) t h
          have hmark : (mark_event_emitted st s.now et).last_event_times et = s.now := by
            simp [mark_event_emitted]
          rw [hmark] at h2
          have hpos := zone_event_cooldown_pos et
          linarith
      · rw [if_neg hc] at ht
        exact ih st t ht

lemma zone_emitter_pairwise (et : String) :
    ∀ (steps : List EmitStep) (st : ZoneState),
      (zone_emitter et st steps).Pairwise
        (fun t1 t2 => t1 + zone_event_cooldown et ≤ t2) := by
  intro steps
  induction steps with
  | nil => intro st; simp [zone_emitter]
  | cons s rest ih =>
      intro st
      rw [zone_emitter]
      by_cases hc : s.fire && can_emit_event st s.now et
      · rw [if_pos hc]
        refine List.pairwise_cons.mpr ⟨?_, ih _⟩
        intro t ht
        have h2 := zone_emitter_lower_bound et rest (mark_event_emitted st s.now et) t ht
        have hmark : (mark_event_emitted st s.now et).last_event_times et = s.now := by
          simp [mark_event_emitted]
        rw [hmark] at h2
        exact h2
      · rw [if_neg hc]
        exact ih st

/-- C10.  Within one zone-processor instance the per-event-type cooldown is
purely time-based: over any frame trace from any starting state, any two
emission times t1 before t2 of the same event type satisfy
t2 − t1 ≥ cooldown(event_type); and the emission times are unchanged when
every candidate confidence in the trace is replaced by 0 — no confidence
value can bypass the zone-level gate, which reads only
`_last_event_times`. -/
theorem zone_cooldown_purely_time_based (et : String) (st : ZoneState)
    (steps : List EmitStep) :
    (zone_emitter et st steps).Pairwise
        (fun t1 t2 => zone_event_cooldown et ≤ t2 - t1) ∧
      zone_emitter et st steps =
        zone_emitter et st (steps.map (fun s => ⟨s.now, s.fire, 0⟩)) := by
  constructor
  · exact (zone_emitter_pairwise et steps st).imp (fun h => by linarith)
  · induction steps generalizing st with
    | nil => rfl
    | cons s rest ih =>
        rw [List.map_cons, zone_emitter, zone_emitter]
        by_cases hc : s.fire && can_emit_event st s.now et
        · rw [if_pos hc, if_pos hc, ih]
        · rw [if_neg hc, if_neg hc, ih]

/-! ## After-hours filter (src/backend/worker/behaviours.py,
`AfterHoursChecker`)

Clock times of day are modelled as minutes since midnight; the default
school hours "07:30"-"17:00" are 450 and 1020.  Events carry the metadata
keys the filter reads or writes (`after_hours`, `zone`, `triggered_by`);
other metadata keys pass through the filter untouched and are omitted. -/

def RESTRICTED_ZONES_AFTER_HOURS : List String :=
  ["corridor", "classroom", "school_ground"]

def AFTER_HOURS_SEVERITY_MULTIPLIER : ℚ := 3/2
def AFTER_HOURS_SEVERITY_CAP : ℚ := 1

/-- "07:30" under the default environment, in minutes since midnight. -/
def DEFAULT_SCHOOL_START : ℕ := 450
/-- "17:00" under the default environment, in minutes since midnight. -/
def DEFAULT_SCHOOL_END : ℕ := 1020

/-- `is_after_hours` (behaviours.py lines 73-76):
`not (start ≤ time_of_day ≤ end)`. -/
def is_after_hours (school_start school_end tod : ℕ) : Bool :=
  !(decide (school_start ≤ tod) && decide (tod ≤ school_end))

/-- A `DetectionEvent` as seen by the after-hours filter. -/
structure BDetectionEvent where
  event_type      : String
  confidence      : ℚ
  bounding_boxes  : List Bbox
  md_after_hours  : Option Bool
  md_zone         : Option String
  md_triggered_by : Option (List String)
deriving DecidableEq

/-- The per-event body of the `filter` loop (behaviours.py lines 94-104):
set `metadata["after_hours"]`, and when after hours scale the confidence by
1.5 clamped to 1.0. -/
def tag_event (after_hours : Bool) (e : BDetectionEvent) : BDetectionEvent :=
  let e1 := { e with md_after_hours := some after_hours }
  if after_hours then
    { e1 with
        confidence := min AFTER_HOURS_SEVERITY_CAP
            (e1.confidence * AFTER_HOURS_SEVERITY_MULTIPLIER) }
  else e1

/-- The event types `_any_persons_in_events` looks for
(behaviours.py lines 120-127). -/
def PERSON_EVENT_TYPES : List String :=
  ["mobile_usage", "fight", "crowd_formation", "weapon_detected", "fall_detected"]

def any_persons_in_events (events : List BDetectionEvent) : Bool :=
  events.any (fun e => PERSON_EVENT_TYPES.contains e.event_type)

/-- `_make_intrusion_event` (behaviours.py lines 129-151): up to 2 boxes per
existing event, 4 overall, confidence 0.90.  (The `ImportError → None`
branch cannot fire in the deployed package and is not modelled.) -/
def make_intrusion_event (events : List BDetectionEvent) (zone : String) :
    BDetectionEvent where
  event_type      := "after_hours_intrusion"
  confidence      := 90/100
  bounding_boxes  := (events.flatMap (fun e => e.bounding_boxes.take 2)).take 4
  md_after_hours  := some true
  md_zone         := some zone
  md_triggered_by := some (events.map (fun e => e.event_type))

/-- `AfterHoursChecker.filter` (behaviours.py lines 78-118). -/
def after_hours_filter (school_start school_end : ℕ)
    (events : List BDetectionEvent) (zone : String) (tod : ℕ) :
    List BDetectionEvent :=
  let ah := is_after_hours school_start school_end tod
  let tagged := events.map (tag_event ah)
  if ah && RESTRICTED_ZONES_AFTER_HOURS.contains zone then
    let has_person_event := tagged.any (fun e =>
      !(["vehicle_detected", "license_plate_detected"].contains e.event_type))
    if has_person_event || any_persons_in_events tagged then
      tagged ++ [make_intrusion_event tagged zone]
    else tagged
  else tagged

/-- C5 counterexample.  One corridor `fight` candidate at confidence 0.4 and
a 22:00 clock (1320 min): the first filter pass yields the escalated fight
plus one synthesized intrusion (2 events); a second pass escalates the
confidence again and appends one more intrusion (3 events), so the filter is
not idempotent. -/
theorem after_hours_filter_not_idempotent :
    after_hours_filter 450 1020
        (after_hours_filter 450 1020
          [⟨"fight", 2/5, [⟨0, 0, 10, 10⟩], none, none, none⟩] "corridor" 1320)
        "corridor" 1320 ≠
      after_hours_filter 450 1020
        [⟨"fight", 2/5, [⟨0, 0, 10, 10⟩], none, none, none⟩] "corridor" 1320 := by
  intro h
  exact absurd (congrArg List.length h) (by decide)

lemma tag_event_false_idem (e : BDetectionEvent) :
    tag_event false (tag_event false e) = tag_event false e := rfl

/-- C5 (amended).  The after-hours filter is idempotent only for in-hours
timestamps: with `is_after_hours = false` a second application changes
nothing.  After hours it is not idempotent — a second pass multiplies each
confidence by 1.5 again (clamped to 1.0) and, in a restricted zone with a
person-involving event, appends a further `after_hours_intrusion` event. -/
theorem after_hours_filter_idempotent_in_hours
    (ss se : ℕ) (events : List BDetectionEvent) (zone : String) (tod : ℕ)
    (h : is_after_hours ss se tod = false) :
    after_hours_filter ss se (after_hours_filter ss se events zone tod) zone tod =
      after_hours_filter ss se events zone tod := by
  unfold after_hours_filter
  rw [h]
  simp [List.map_map, Function.comp, tag_event_false_idem]

/-- Witness for amended C5 at noon (720 min), corridor, one fight event. -/
theorem after_hours_filter_idempotent_in_hours_witness :
    is_after_hours 450 1020 720 = false ∧
      after_hours_filter 450 1020
          (after_hours_filter 450 1020
            [⟨"fight", 2/5, [⟨0, 0, 10, 10⟩], none, none, none⟩] "corridor" 720)
          "corridor" 720 =
        after_hours_filter 450 1020
          [⟨"fight", 2/5, [⟨0, 0, 10, 10⟩], none, none, none⟩] "corridor" 720 :=
  ⟨by decide, after_hours_filter_idempotent_in_hours 450 1020
    [⟨"fight", 2/5, [⟨0, 0, 10, 10⟩], none, none, none⟩] "corridor" 720 (by decide)⟩

/-- C6.  In a restricted zone after hours, if the event list holds at least
one person-involving event, the filtered list contains a synthesized
`after_hours_intrusion` event with confidence 0.90 whose bounding boxes
number at most 4 and are all collected from the input events. -/
theorem after_hours_intrusion_synthesis
    (ss se : ℕ) (events : List BDetectionEvent) (zone : String) (tod : ℕ)
    (hzone : zone ∈ RESTRICTED_ZONES_AFTER_HOURS)
    (hah : is_after_hours ss se tod = true)
    (hperson : ∃ e ∈ events, e.event_type ∈ PERSON_EVENT_TYPES) :
    ∃ ev ∈ after_hours_filter ss se events zone tod,
      ev.event_type = "after_hours_intrusion" ∧
      ev.confidence = 90/100 ∧
      ev.bounding_boxes.length ≤ 4 ∧
      ∀ b ∈ ev.bounding_boxes, ∃ e ∈ events, b ∈ e.bounding_boxes := by
  obtain ⟨e0, he0, htype⟩ := hperson
  have hzc : RESTRICTED_ZONES_AFTER_HOURS.contains zone = true := by
    exact List.elem_iff.mpr hzone
  have hany : any_persons_in_events (events.map (tag_event true)) = true := by
    rw [any_persons_in_events, List.any_eq_true]
    refine ⟨tag_event true e0, List.mem_map_of_mem _ he0, ?_⟩
    have : (tag_event true e0).event_type = e0.event_type := by
      unfold tag_event
      simp
    rw [this]
    exact List.elem_iff.mpr htype
  unfold after_hours_filter
  rw [hah]
  rw [hzc]
  simp only [Bool.and_self, if_pos, hany, Bool.or_true, if_true]
  refine ⟨make_intrusion_event (events.map (tag_event true)) zone,
    List.mem_append_right _ (List.mem_singleton.mpr rfl), rfl, rfl, ?_, ?_⟩
  · exact List.length_take_le _ _
  · intro b hb
    have hb2 := List.take_subset _ _ hb
    obtain ⟨te, hte, hbte⟩ := List.mem_flatMap.mp hb2
    obtain ⟨e1, he1, rfl⟩ := List.mem_map.mp hte
    have hbb : (tag_event true e1).bounding_boxes = e1.bounding_boxes := by
      unfold tag_event
      simp
    rw [hbb] at hbte
    exact ⟨e1, he1, List.take_subset _ _ hbte⟩

/-- Witness for C6: corridor at 22:00 with one `fight` event carrying one
box — the claim's hypotheses hold and an intrusion event is synthesized. -/
theorem after_hours_intrusion_synthesis_witness :
    ("corridor" ∈ RESTRICTED_ZONES_AFTER_HOURS ∧
      is_after_hours 450 1020 1320 = true ∧
      (∃ e ∈ [(⟨"fight", 2/5, [⟨0, 0, 10, 10⟩], none, none, none⟩ : BDetectionEvent)],
        e.event_type ∈ PERSON_EVENT_TYPES)) ∧
    (∃ ev ∈ after_hours_filter 450 1020
        [⟨"fight", 2/5, [⟨0, 0, 10, 10⟩], none, none, none⟩] "corridor" 1320,
      ev.event_type = "after_hours_intrusion" ∧
      ev.confidence = 90/100 ∧
      ev.bounding_boxes.length ≤ 4 ∧
      ∀ b ∈ ev.bounding_boxes,
        ∃ e ∈ [(⟨"fight", 2/5, [⟨0, 0, 10, 10⟩], none, none, none⟩ : BDetectionEvent)],
          b ∈ e.bounding_boxes) :=
  ⟨⟨by decide, by decide, by decide⟩,
    after_hours_intrusion_synthesis 450 1020
      [⟨"fight", 2/5, [⟨0, 0, 10, 10⟩], none, none, none⟩] "corridor" 1320
      (by decide) (by decide) (by decide)⟩

/-! ## Fallback centroid tracker (src/backend/worker/registry.py,
`SimpleTracker`)

Centroids are exact rationals (Python's true division `/ 2`); centroid
distances are compared through their squares against
`max_distance² = 10000`, the same order as `np.hypot` against 100.0.
`np.argsort` on the flattened row-major distance matrix is modelled as a
stable sort of the row-major pair list (ties between equal distances are
implementation-defined in the source; row-major order realises one valid
argsort). -/

/-- A detection dict as consumed by `SimpleTracker.update`. -/
structure SDetection where
  class_name : String
  class_id   : ℤ
  bbox       : Bbox
  confidence : ℚ
deriving DecidableEq

/-- One record of `SimpleTracker._objects`. -/
structure STrack where
  centroid    : ℚ × ℚ
  bbox        : Bbox
  class_name  : String
  class_id    : ℤ
  confidence  : ℚ
  motion      : ℚ × ℚ
  timestamp   : ℚ
  disappeared : ℕ
deriving DecidableEq

/-- `SimpleTracker` state: `_next_id` and the insertion-ordered
`_objects` dict. -/
structure SimpleTrackerState where
  next_id : ℕ
  objects : List (ℕ × STrack)
deriving DecidableEq

/-- `max_disappeared = 10` (registry.py line 407). -/
def max_disappeared : ℕ := 10

/-- `max_distance = 100.0`, compared in squared form. -/
def max_distance_sq : ℚ := 10000

/-- `TrackedObjectData` (registry.py lines 385-394). -/
structure TrackedObjectData where
  object_id     : ℕ
  class_id      : ℤ
  class_name    : String
  bbox          : Bbox
  confidence    : ℚ
  motion_vector : ℚ × ℚ
  timestamp     : ℚ
deriving DecidableEq

/-- Input centroid `((x1+x2)/2, (y1+y2)/2)` with true division. -/
def det_centroid (d : SDetection) : ℚ × ℚ :=
  (((d.bbox.x1 : ℚ) + (d.bbox.x2 : ℚ)) / 2, ((d.bbox.y1 : ℚ) + (d.bbox.y2 : ℚ)) / 2)

/-- Squared Euclidean distance between rational centroids. -/
def qdist_sq (a b : ℚ × ℚ) : ℚ :=
  (a.1 - b.1) * (a.1 - b.1) + (a.2 - b.2) * (a.2 - b.2)

/-- `SimpleTracker._register` (registry.py lines 490-501). -/
def register_detection (st : SimpleTrackerState) (d : SDetection) (now : ℚ) :
    SimpleTrackerState where
  next_id := st.next_id + 1
  objects := st.objects ++
    [(st.next_id, ⟨det_centroid d, d.bbox, d.class_name, d.class_id,
      d.confidence, (0, 0), now, 0⟩)]

/-- Stable ascending insertion by the distance component. -/
def insert_by_dist (x : ℕ × ℕ × ℚ) : List (ℕ × ℕ × ℚ) → List (ℕ × ℕ × ℚ)
  | [] => [x]
  | y :: rest => if x.2.2 < y.2.2 then x :: y :: rest else y :: insert_by_dist x rest

/-- Stable sort of the row-major (row, col, distance²) list — the model of
`np.argsort(D.flatten())`. -/
def sort_by_dist : List (ℕ × ℕ × ℚ) → List (ℕ × ℕ × ℚ)
  | [] => []
  | x :: rest => insert_by_dist x (sort_by_dist rest)

/-- The greedy assignment loop of `SimpleTracker.update` (registry.py lines
443-465): walk pairs in ascending distance order, skip already matched rows
and columns, skip pairs beyond `max_distance`, and record matches.  No
class comparison appears anywhere in it. -/
def greedy_match (pairs : List (ℕ × ℕ × ℚ)) : List (ℕ × ℕ) :=
  pairs.foldl (fun acc p =>
    if acc.any (fun m => m.1 == p.1) || acc.any (fun m => m.2 == p.2.1) then acc
    else if max_distance_sq < p.2.2 then acc
    else acc ++ [(p.1, p.2.1)]) []

def default_sdetection : SDetection := ⟨"", 0, ⟨0, 0, 0, 0⟩, 0⟩

/-- The objects with `disappeared == 0`, as returned by `update`. -/
def tracker_output (st : SimpleTrackerState) : List TrackedObjectData :=
  st.objects.filterMap (fun p =>
    if p.2.disappeared == 0 then
      some ⟨p.1, p.2.class_id, p.2.class_name, p.2.bbox, p.2.confidence,
        p.2.motion, p.2.timestamp⟩
    else none)

/-- `SimpleTracker.update` (registry.py lines 413-488), with `time.time()`
explicit.  Matched rows update in place (class_id kept from registration,
class_name overwritten by the detection), unmatched rows age and purge past
`max_disappeared`, unmatched columns register in ascending column order. -/
def simple_tracker_update (st : SimpleTrackerState) (detections : List SDetection)
    (now : ℚ) : List TrackedObjectData × SimpleTrackerState :=
  match detections with
  | [] =>
      let objects := st.objects.filterMap (fun p =>
        if p.2.disappeared + 1 > max_disappeared then none
        else some (p.1, { p.2 with disappeared := p.2.disappeared + 1 }))
      ([], { st with objects := objects })
  | _ :: _ =>
      if st.objects.isEmpty then
        let st1 := detections.foldl (fun s d => register_detection s d now) st
        (tracker_output st1, st1)
      else
        let nc := detections.length
        let pairs := st.objects.enum.flatMap (fun rp =>
          detections.enum.map (fun cp =>
            (rp.1, cp.1, qdist_sq rp.2.2.centroid (det_centroid cp.2))))
        let assigned := greedy_match (sort_by_dist pairs)
        let objects1 := st.objects.enum.filterMap (fun rp =>
          match assigned.find? (fun m => m.1 == rp.1) with
          | some m =>
              let d := detections.getD m.2 default_sdetection
              let ncen := det_centroid d
              some (rp.2.1, { rp.2.2 with
                centroid := ncen, bbox := d.bbox, class_name := d.class_name,
                confidence := d.confidence,
                motion := (ncen.1 - rp.2.2.centroid.1, ncen.2 - rp.2.2.centroid.2),
                timestamp := now, disappeared := 0 })
          | none =>
              if rp.2.2.disappeared + 1 > max_disappeared then none
              else some (rp.2.1, { rp.2.2 with disappeared := rp.2.2.disappeared + 1 }))
        let st2 :=
          ((List.range nc).filter (fun c => !(assigned.any (fun m => m.2 == c)))).foldl
            (fun s c => register_detection s (detections.getD c default_sdetection) now)
            { st with objects := objects1 }
        (tracker_output st2, st2)

/-- C7 failing input.  A single existing track of class "person" at centroid
(0,0) with no disappearance, and one detection of class "car" at the same
centroid: `update` associates the car detection to the person track (same
object_id 0) and overwrites the class, although the claim (and the
tracker's own docstring) require class-consistent assignment. -/
theorem tracker_associates_across_classes :
    ((simple_tracker_update
        ⟨1, [(0, ⟨(0, 0), ⟨-5, -5, 5, 5⟩, "person", 0, 1/2, (0, 0), 0, 0⟩)]⟩
        [⟨"car", 2, ⟨-5, -5, 5, 5⟩, 9/10⟩] 1).1.map
          (fun t => (t.object_id, t.class_name))) = [(0, "car")] ∧
      "car" ≠ "person" := by
  constructor
  · norm_num [simple_tracker_update, tracker_output, greedy_match, sort_by_dist,
      insert_by_dist, qdist_sq, det_centroid, max_distance_sq, default_sdetection,
      List.enum, List.enumFrom, register_detection, max_disappeared,
      List.range_succ, List.range_zero, List.filter_cons, List.filter_nil,
      List.filterMap_cons, List.filterMap_nil, List.foldl_cons, List.foldl_nil]
  · decide

end CCTV
